import Mathlib

/-!
Verification development for the weather-api-proxy service (src/server.js).

The embedding is shallow: each function of src/server.js that the claims
touch is translated into a Lean definition over exact rational arithmetic
(JS doubles are modelled by ℚ; for the coordinate magnitudes involved the
double computations agree with the exact ones on everything stated here),
and the Express handlers become pure functions from an explicit environment
(cache connectivity, cache lookup outcome, upstream outcome, clock) to a
response value.
-/

/-- JSON values, as produced by JSON.parse and consumed by res.json.
Numbers are modelled by ℚ. Object fields keep insertion order. -/
inductive Json where
  | null : Json
  | bool (b : Bool) : Json
  | num (q : ℚ) : Json
  | str (s : String) : Json
  | arr (elems : List Json) : Json
  | obj (fields : List (String × Json)) : Json

/-- JS truthiness of a JSON value: null, false, 0 and "" are falsy;
objects and arrays (even empty) are truthy. -/
def Json.truthy : Json → Bool
  | .null => false
  | .bool b => b
  | .num q => q ≠ 0
  | .str s => s ≠ ""
  | .arr _ => true
  | .obj _ => true

/-- First binding of a key in an object's field list (JS objects hold each
key once, so first = only). -/
def lookupField : List (String × Json) → String → Option Json
  | [], _ => none
  | (k', v) :: rest, k => if k' = k then some v else lookupField rest k

/-- Property read `j[k]`: a value for objects that carry the key, none
(undefined) otherwise. -/
def Json.getField : Json → String → Option Json
  | .obj fs, k => lookupField fs k
  | _, _ => none

def setFieldList : List (String × Json) → String → Json → List (String × Json)
  | [], k, v => [(k, v)]
  | (k', v') :: rest, k, v =>
      if k' = k then (k, v) :: rest else (k', v') :: setFieldList rest k v

/-- Runtime exception inside the /weather handler's try block: a
TypeError, raised by reading a property of undefined (the transformer on
a body without currentConditions) or by assigning a property of null (a
cache entry storing "null"). -/
inductive JsError where
  | typeError (message : String) : JsError

/-- Property assignment `j[k] = v` as the expression evaluates in JS: on
an object it overwrites in place or appends at the end; on null it throws
a TypeError (in every mode, sloppy included); on a number, string or
boolean primitive it is a silent no-op in sloppy mode (this file has no
use-strict); on an array the assignment succeeds in JS, but the added
non-index property is invisible to JSON serialization, so the value
res.json would emit is the array unchanged. -/
def Json.setField : Json → String → Json → Except JsError Json
  | .obj fs, k, v => .ok (.obj (setFieldList fs k v))
  | .null, k, _ =>
      .error (.typeError ("Cannot set properties of null (setting '" ++ k ++ "')"))
  | j, _, _ => .ok j

/-- JS `a || b` where `a` may be an absent property (undefined). -/
def jsOr (a : Option Json) (b : Json) : Json :=
  match a with
  | some v => if v.truthy then v else b
  | none => b

/-! ## The JS number model used by validateCoordinates

parseFloat can return NaN and the two infinities, and the range checks at
src/server.js lines 74-80 compare such values, so the validator works over
this sum type rather than ℚ directly. -/

/-- Result of JS parseFloat: NaN, an infinity, or a finite value (exact;
the double rounding of parseFloat never moves a value across the NaN /
infinite / range-check boundaries the validator tests). -/
inductive JsNum where
  | nan : JsNum
  | posInf : JsNum
  | negInf : JsNum
  | fin (q : ℚ) : JsNum
deriving DecidableEq

def JsNum.isNaN : JsNum → Bool
  | .nan => true
  | _ => false

/-- JS `<` on numbers: false whenever either side is NaN, infinities
ordered as usual. -/
def jsLt : JsNum → JsNum → Bool
  | .fin a, .fin b => decide (a < b)
  | .negInf, .fin _ => true
  | .negInf, .posInf => true
  | .fin _, .posInf => true
  | _, _ => false

/-- Junk-totalised extraction of a finite value; the validator only reads
it after the range checks have excluded NaN and the infinities. -/
def JsNum.toRatOr0 : JsNum → ℚ
  | .fin q => q
  | _ => 0

/-! ## parseFloat (ECMA-262 StrDecimalLiteral, longest valid prefix) -/

/-- Whitespace skipped by parseFloat (the ASCII members plus NBSP; other
Unicode space characters do not appear in query strings and are omitted). -/
def jsWhitespace (c : Char) : Bool :=
  c = ' ' || c = '\t' || c = '\n' || c = '\r' || c = '\u000b' || c = '\u000c' || c = '\u00a0'

/-- Consume a maximal run of decimal digits: (value, how many digits, rest). -/
def takeDigits : List Char → Nat × Nat × List Char
  | [] => (0, 0, [])
  | c :: cs =>
      if c.isDigit then
        let r := takeDigits cs
        ((c.toNat - 48) * 10 ^ r.2.1 + r.1, r.2.1 + 1, r.2.2)
      else (0, 0, c :: cs)

/-- Optional exponent part after the mantissa: `e`/`E`, optional sign,
digits. An `e` not followed by digits is not part of the literal, so it
contributes exponent 0 (parseFloat keeps the longest valid prefix). -/
def parseExponent (cs : List Char) : Int :=
  match cs with
  | 'e' :: rest | 'E' :: rest =>
      match rest with
      | '+' :: rest2 => let d := takeDigits rest2; if d.2.1 = 0 then 0 else (d.1 : Int)
      | '-' :: rest2 => let d := takeDigits rest2; if d.2.1 = 0 then 0 else -(d.1 : Int)
      | _ => let d := takeDigits rest; if d.2.1 = 0 then 0 else (d.1 : Int)
  | _ => 0

/-- Mantissa after sign: DecimalDigits [. DecimalDigits] [Exponent]
or . DecimalDigits [Exponent]; NaN when no digit is found. -/
def parseMantissa (sign : Int) (cs : List Char) : JsNum :=
  let int := takeDigits cs
  if int.2.1 = 0 then
    match int.2.2 with
    | '.' :: cs2 =>
        let frac := takeDigits cs2
        if frac.2.1 = 0 then .nan
        else .fin ((sign : ℚ) * ((frac.1 : ℚ) / 10 ^ frac.2.1) * 10 ^ parseExponent frac.2.2)
    | _ => .nan
  else
    match int.2.2 with
    | '.' :: cs2 =>
        let frac := takeDigits cs2
        .fin ((sign : ℚ) * ((int.1 : ℚ) + (frac.1 : ℚ) / 10 ^ frac.2.1) * 10 ^ parseExponent frac.2.2)
    | _ => .fin ((sign : ℚ) * (int.1 : ℚ) * 10 ^ parseExponent int.2.2)

/-- JS parseFloat: skip whitespace, optional sign, then either Infinity or
a decimal literal prefix; NaN when nothing numeric starts the string. -/
def parseFloat (s : String) : JsNum :=
  let cs := s.data.dropWhile (fun c => jsWhitespace c)
  let sr : Int × List Char :=
    match cs with
    | '+' :: r => (1, r)
    | '-' :: r => (-1, r)
    | _ => (1, cs)
  if "Infinity".data.isPrefixOf sr.2 then
    if sr.1 < 0 then .negInf else .posInf
  else parseMantissa sr.1 sr.2

/-! ## roundCoordinate (src/server.js lines 61-63) -/

/-- JS Math.round: the integer nearest to x, ties toward positive
infinity; ECMA-262 specifies it as floor(x + 1/2). -/
def mathRound (x : ℚ) : ℤ := ⌊x + 1 / 2⌋

/-- src/server.js lines 61-63: Math.round(coord * 100) / 100. -/
def roundCoordinate (coord : ℚ) : ℚ :=
  (mathRound (coord * 100) : ℚ) / 100

/-! ## Number-to-string and the cache key (src/server.js line 176) -/

/-- JS default Number→String conversion, restricted to the values that
reach it here: roundCoordinate always yields an integer multiple of 1/100,
and for such values (at coordinate magnitudes) JS prints the shortest
decimal form — no trailing zeros, no decimal point for integers, and -0
printed as "0". The floor of 100·q recovers the integer numerator. -/
def jsNumToString (q : ℚ) : String :=
  let m : ℤ := ⌊q * 100⌋
  let n : ℕ := m.natAbs
  let sign : String := if m < 0 then "-" else ""
  let ip : ℕ := n / 100
  let fp : ℕ := n % 100
  if fp = 0 then sign ++ toString ip
  else if fp % 10 = 0 then sign ++ toString ip ++ "." ++ toString (fp / 10)
  else sign ++ toString ip ++ "." ++ (if fp < 10 then "0" else "") ++ toString fp

/-- src/server.js line 176: the template literal
weather:(roundedLat):(roundedLon) applied to the already-rounded values. -/
def cacheKey (roundedLat roundedLon : ℚ) : String :=
  "weather:" ++ jsNumToString roundedLat ++ ":" ++ jsNumToString roundedLon

/-! ## validateCoordinates (src/server.js lines 66-83) -/

/-- Outcome of validateCoordinates: the JS object {valid:false, error} or
{valid:true, latitude, longitude}. -/
inductive ValidationResult where
  | invalid (error : String) : ValidationResult
  | ok (latitude longitude : ℚ) : ValidationResult
deriving DecidableEq

/-- src/server.js lines 66-83: parseFloat both inputs, reject NaN with the
format error, then the two range checks. Values reaching `ok` are finite,
since an infinite latitude or longitude fails its range check. -/
def validateCoordinates (lat lon : String) : ValidationResult :=
  let latitude := parseFloat lat
  let longitude := parseFloat lon
  if latitude.isNaN || longitude.isNaN then
    .invalid "Invalid coordinates format"
  else if jsLt latitude (.fin (-90)) || jsLt (.fin 90) latitude then
    .invalid "Latitude must be between -90 and 90"
  else if jsLt longitude (.fin (-180)) || jsLt (.fin 180) longitude then
    .invalid "Longitude must be between -180 and 180"
  else
    .ok latitude.toRatOr0 longitude.toRatOr0

/-! ## The raw upstream response and transformWeatherData
(src/server.js lines 86-146)

Fields the transformer merely copies are typed Option Json (absent = JS
undefined; res.json drops an undefined property). Fields whose presence or
shape the control flow inspects (currentConditions, days, hours,
precipprob, datetime) carry the type that inspection relies on. -/

structure RawHour where
  datetime : String
  temp : Option Json
  precipprob : Option Json
  conditions : Option Json
  icon : Option Json
  humidity : Option Json
  windspeed : Option Json

structure RawDay where
  datetime : String
  hours : Option (List RawHour)
  tempmax : Option Json
  tempmin : Option Json
  precipprob : Option Json
  conditions : Option Json
  icon : Option Json
  humidity : Option Json
  windspeed : Option Json

structure RawCurrent where
  temp : Option Json
  feelslike : Option Json
  humidity : Option Json
  windspeed : Option Json
  conditions : Option Json
  icon : Option Json
  precipprob : Option Json

structure Raw where
  currentConditions : Option RawCurrent
  days : Option (List RawDay)
  resolvedAddress : Option Json
  timezone : Option Json

/-- One record of the output hourly array (src/server.js lines 100-108);
precipProb is always present after the || 0 default. -/
structure HourRec where
  time : String
  temp : Option Json
  precipProb : Json
  condition : Option Json
  icon : Option Json
  humidity : Option Json
  windSpeed : Option Json

/-- One record of the output daily array (src/server.js lines 114-123). -/
structure DailyRec where
  date : String
  tempMax : Option Json
  tempMin : Option Json
  precipProb : Json
  condition : Option Json
  icon : Option Json
  humidity : Option Json
  windSpeed : Option Json

structure LocationOut where
  lat : ℚ
  lon : ℚ
  address : Option Json
  timezone : Option Json

structure CurrentOut where
  temp : Option Json
  feelsLike : Option Json
  humidity : Option Json
  windSpeed : Option Json
  condition : Option Json
  icon : Option Json
  precipProb : Json

/-- The WeatherSnapshot produced by transformWeatherData
(src/server.js lines 125-145). -/
structure Snapshot where
  location : LocationOut
  current : CurrentOut
  hourly : List HourRec
  daily : List DailyRec
  cached : Bool
  timestamp : String

/-- src/server.js lines 100-108: the record pushed for one hour of one day. -/
def mkHourRec (dayDate : String) (h : RawHour) : HourRec :=
  { time := dayDate ++ "T" ++ h.datetime
  , temp := h.temp
  , precipProb := jsOr h.precipprob (.num 0)
  , condition := h.conditions
  , icon := h.icon
  , humidity := h.humidity
  , windSpeed := h.windspeed }

/-- src/server.js lines 114-123: the record mapped from one day. -/
def mkDailyRec (d : RawDay) : DailyRec :=
  { date := d.datetime
  , tempMax := d.tempmax
  , tempMin := d.tempmin
  , precipProb := jsOr d.precipprob (.num 0)
  , condition := d.conditions
  , icon := d.icon
  , humidity := d.humidity
  , windSpeed := d.windspeed }

/-- src/server.js lines 91-111: the nested hourly loop. `cap` is the
remaining budget 48 - hoursCollected; the inner loop stops pushing at the
budget, and a day whose budget is already 0 contributes nothing (the
code's outer break; a falsy day.hours is skipped by the continue). -/
def collectHours : List RawDay → Nat → List HourRec
  | [], _ => []
  | d :: ds, cap =>
      let hs := ((d.hours.getD []).take cap).map (mkHourRec d.datetime)
      hs ++ collectHours ds (cap - hs.length)

/-- Every hour of every day in input order: what the loop would collect
with no budget. Used to state what truncation keeps. -/
def allHours : List RawDay → List HourRec
  | [] => []
  | d :: ds => (d.hours.getD []).map (mkHourRec d.datetime) ++ allHours ds

/-- src/server.js lines 86-146. `data.currentConditions` being absent
makes line 133 read .temp of undefined: the TypeError propagates out of
the function (transform is not total), modelled as the error branch. The
hourly and daily arrays are built exactly as the loops do. -/
def transformWeatherData (data : Raw) (lat lon : ℚ) (cached : Bool) (now : String) :
    Except JsError Snapshot :=
  let days := data.days.getD []
  let hourly := collectHours days 48
  let daily := (days.take 7).map mkDailyRec
  match data.currentConditions with
  | none => .error (.typeError "Cannot read properties of undefined (reading 'temp')")
  | some current =>
      .ok
        { location :=
            { lat := roundCoordinate lat
            , lon := roundCoordinate lon
            , address := data.resolvedAddress
            , timezone := data.timezone }
        , current :=
            { temp := current.temp
            , feelsLike := current.feelslike
            , humidity := current.humidity
            , windSpeed := current.windspeed
            , condition := current.conditions
            , icon := current.icon
            , precipProb := jsOr current.precipprob (.num 0) }
        , hourly := hourly
        , daily := daily
        , cached := cached
        , timestamp := now }

/-! ## Serialization of the snapshot by res.json -/

/-- A field that res.json keeps only when the value is not undefined. -/
def optField (k : String) : Option Json → List (String × Json)
  | some v => [(k, v)]
  | none => []

def hourRecToJson (h : HourRec) : Json :=
  .obj ([("time", .str h.time)] ++ optField "temp" h.temp ++
        [("precipProb", h.precipProb)] ++ optField "condition" h.condition ++
        optField "icon" h.icon ++ optField "humidity" h.humidity ++
        optField "windSpeed" h.windSpeed)

def dailyRecToJson (d : DailyRec) : Json :=
  .obj ([("date", .str d.date)] ++ optField "tempMax" d.tempMax ++
        optField "tempMin" d.tempMin ++ [("precipProb", d.precipProb)] ++
        optField "condition" d.condition ++ optField "icon" d.icon ++
        optField "humidity" d.humidity ++ optField "windSpeed" d.windSpeed)

def locationToJson (l : LocationOut) : Json :=
  .obj ([("lat", .num l.lat), ("lon", .num l.lon)] ++
        optField "address" l.address ++ optField "timezone" l.timezone)

def currentToJson (c : CurrentOut) : Json :=
  .obj (optField "temp" c.temp ++ optField "feelsLike" c.feelsLike ++
        optField "humidity" c.humidity ++ optField "windSpeed" c.windSpeed ++
        optField "condition" c.condition ++ optField "icon" c.icon ++
        [("precipProb", c.precipProb)])

def snapshotToJson (s : Snapshot) : Json :=
  .obj [("location", locationToJson s.location),
        ("current", currentToJson s.current),
        ("hourly", .arr (s.hourly.map hourRecToJson)),
        ("daily", .arr (s.daily.map dailyRecToJson)),
        ("cached", .bool s.cached),
        ("timestamp", .str s.timestamp)]

/-! ## The /weather handler (src/server.js lines 158-254) -/

/-- What one redisClient.get plus JSON.parse round trip yields:
hit carries the parsed value of a non-empty stored string; miss is a null
(or empty-string, equally falsy) reply; fail is a get or JSON.parse throw,
which the inner catch at lines 190-192 absorbs. -/
inductive CacheGetResult where
  | hit (data : Json) : CacheGetResult
  | miss : CacheGetResult
  | fail : CacheGetResult

/-- Rejection of the axios.get at line 213: an HTTP error response
(error.response set, carrying the upstream status, parsed body and
message), a timeout (error.code === ECONNABORTED, no response), or any
other transport failure (no response, another code). -/
inductive AxiosError where
  | httpError (status : Nat) (data : Json) (message : String) : AxiosError
  | timeout (message : String) : AxiosError
  | netError (message : String) : AxiosError

/-- Per-request environment: process-wide connectivity flag and API-key
presence, the outcome the cache would give for a get of each key, the
outcome the single upstream fetch would have, and the clock reading that
new Date().toISOString() returns during this request. -/
structure Env where
  redisConnected : Bool
  cacheGet : String → CacheGetResult
  apiKeyConfigured : Bool
  upstream : Except AxiosError Raw
  now : String

structure Response where
  status : Nat
  body : Json

/-- The handler's observable outcome: the HTTP response, and whether
control reached the axios.get call at line 213. -/
structure HandlerResult where
  response : Response
  upstreamCalled : Bool

/-- src/server.js lines 230-253: the catch block, applied to whatever the
try block threw — an axios rejection or a runtime TypeError (which has
neither a response nor a code, so it falls through to the 500 branch). -/
def catchBlock : Sum AxiosError JsError → Response
  | .inl (.httpError st data msg) =>
      { status := st
      , body := .obj [("error", .str "Weather API error"),
                      ("message", jsOr (data.getField "message") (.str msg)),
                      ("details", data)] }
  | .inl (.timeout _) =>
      { status := 504
      , body := .obj [("error", .str "Request timeout"),
                      ("message", .str "Weather API took too long to respond")] }
  | .inl (.netError msg) =>
      { status := 500
      , body := .obj [("error", .str "Internal server error"), ("message", .str msg)] }
  | .inr (.typeError msg) =>
      { status := 500
      , body := .obj [("error", .str "Internal server error"), ("message", .str msg)] }

/-- src/server.js lines 179-184: the guarded get-and-parse alone — the
parsed value when the flag is set and a truthy stored string parses, none
when the adapter is disconnected, the reply is a miss, or get/JSON.parse
threw (absorbed by the catch at lines 190-192). -/
def cacheLookup (env : Env) (key : String) : Option Json :=
  if env.redisConnected then
    match env.cacheGet key with
    | .hit d => some d
    | .miss => none
    | .fail => none
  else none

/-- src/server.js lines 179-193: the whole guarded try block. After a
parsed hit, lines 185-186 assign data.cached and data.timestamp; on a
parsed null the first assignment throws a TypeError, which the same
catch at lines 190-192 absorbs, so the request falls through to the
upstream path exactly as on a miss. Some body = the try block returned
res.json(body); none = execution continues past the block. -/
def cacheTryBlock (env : Env) (key : String) : Option Json :=
  match cacheLookup env key with
  | none => none
  | some d =>
      match d.setField "cached" (.bool true) with
      | .error _ => none
      | .ok d1 =>
          match d1.setField "timestamp" (.str env.now) with
          | .error _ => none
          | .ok d2 => some d2

/-- src/server.js lines 158-254: the GET /weather handler. The best-effort
cache write at lines 218-226 has no influence on the response (its errors
are caught and logged) and is not part of the observable outcome. -/
def weatherHandler (env : Env) (latRaw lonRaw : String) : HandlerResult :=
  match validateCoordinates latRaw lonRaw with
  | .invalid msg =>
      { response :=
          { status := 400
          , body := .obj [("error", .str msg),
                          ("message", .str "Please provide valid lat and lon parameters")] }
      , upstreamCalled := false }
  | .ok latitude longitude =>
      let roundedLat := roundCoordinate latitude
      let roundedLon := roundCoordinate longitude
      let key := cacheKey roundedLat roundedLon
      match cacheTryBlock env key with
      | some body =>
          { response := { status := 200, body := body }
          , upstreamCalled := false }
      | none =>
          if !env.apiKeyConfigured then
            { response :=
                { status := 500
                , body := .obj [("error", .str "API key not configured"),
                                ("message", .str "VISUAL_CROSSING_API_KEY environment variable is missing")] }
            , upstreamCalled := false }
          else
            match env.upstream with
            | .error e => { response := catchBlock (.inl e), upstreamCalled := true }
            | .ok raw =>
                match transformWeatherData raw roundedLat roundedLon false env.now with
                | .error jserr =>
                    { response := catchBlock (.inr jserr), upstreamCalled := true }
                | .ok snap =>
                    { response := { status := 200, body := snapshotToJson snap }
                    , upstreamCalled := true }

/-! ## The /health handler (src/server.js lines 149-155) -/

/-- src/server.js lines 149-155: res.json of a literal object; no
operation in it can throw, so the handler is total. -/
def healthHandler (redisConnected : Bool) (now : String) : Response :=
  { status := 200
  , body := .obj [("status", .str "ok"),
                  ("redis", .str (if redisConnected then "connected" else "disconnected")),
                  ("timestamp", .str now)] }

/-! ## Process startup (src/server.js lines 14-55)

As committed, the startup IIFE does not parse: lines 44-54 duplicate the
connect registration and the catch of lines 29-39, leaving the catch at
line 51 without a try, a SyntaxError that stops the module from loading at
all. The definition below takes the reading most favourable to the spec —
the duplicated statements at lines 45-50 execute after the if/else — and
models the statement sequence under it: even then, whenever the else
branch ran (no REDIS_URL, redisClient never assigned) or the catch ran
(connection failed, redisClient set to null at line 38), line 45 reads
.on of null/undefined and the TypeError rejects the async IIFE, crashing
the process. -/

inductive StartupResult where
  | running (redisConnected : Bool) : StartupResult
  | crashed (error : String) : StartupResult
deriving DecidableEq

/-- src/server.js lines 14-55 under the charitable parse described above.
The pair is (redisClient as an option, redisConnected) after the if/else
of lines 15-43; lines 45-50 then dereference the client unconditionally. -/
def startup (redisUrlConfigured redisReachable : Bool) : StartupResult :=
  let st : Option Unit × Bool :=
    if redisUrlConfigured then
      if redisReachable then (some (), true)
      else (none, false)
    else (none, false)
  match st.1 with
  | none => .crashed "TypeError: Cannot read properties of null (reading 'on')"
  | some _ => .running st.2

/-! ## Helper lemmas -/

theorem mathRound_intCast (m : ℤ) : mathRound (m : ℚ) = m := by
  have h : ((m : ℚ) + 1 / 2) = (1 / 2 : ℚ) + m := by ring
  rw [mathRound, h, Int.floor_add_int]
  norm_num

theorem roundCoordinate_idem (q : ℚ) :
    roundCoordinate (roundCoordinate q) = roundCoordinate q := by
  unfold roundCoordinate
  rw [div_mul_cancel₀ _ (by norm_num : (100 : ℚ) ≠ 0), mathRound_intCast]

/-- C8: for every valid coordinate pair, roundCoordinate is idempotent on
both components: round(round(x)) = round(x). -/
theorem roundCoordinate_idempotent (lat lon : ℚ)
    (hlat : -90 ≤ lat ∧ lat ≤ 90) (hlon : -180 ≤ lon ∧ lon ≤ 180) :
    roundCoordinate (roundCoordinate lat) = roundCoordinate lat ∧
    roundCoordinate (roundCoordinate lon) = roundCoordinate lon :=
  ⟨roundCoordinate_idem lat, roundCoordinate_idem lon⟩

theorem roundCoordinate_idempotent_witness :
    roundCoordinate (roundCoordinate (356812 / 10000)) = roundCoordinate (356812 / 10000) ∧
    roundCoordinate (roundCoordinate (1396545 / 10000)) = roundCoordinate (1396545 / 10000) :=
  roundCoordinate_idempotent (356812 / 10000) (1396545 / 10000)
    (by norm_num) (by norm_num)

/-- Follows the spec's words, for comparison with the code: rounding to
the nearest integer with ties broken away from zero. -/
def specRoundHalfAwayFromZero (x : ℚ) : ℤ :=
  if 0 ≤ x then ⌊x + 1 / 2⌋ else -⌊-x + 1 / 2⌋

/-- Follows the spec's words, for comparison with the code: rounding to
the nearest integer with ties broken to the even neighbour (banker's). -/
def specRoundHalfEven (x : ℚ) : ℤ :=
  if x - ⌊x⌋ < 1 / 2 then ⌊x⌋
  else if 1 / 2 < x - ⌊x⌋ then ⌊x⌋ + 1
  else if 2 ∣ ⌊x⌋ then ⌊x⌋ else ⌊x⌋ + 1

/-- C9 counterexample: the code's rounding agrees with neither candidate
mode on every value. Half-away-from-zero disagrees at coord = -1/8
(-12.5 rounds to -12, away-from-zero gives -13); banker's disagrees at
coord = 1/8 (12.5 rounds to 13, banker's gives 12). -/
theorem roundCoordinate_mode_counterexample :
    ¬ ((∀ x : ℚ, roundCoordinate x = (specRoundHalfAwayFromZero (x * 100) : ℚ) / 100) ∨
       (∀ x : ℚ, roundCoordinate x = (specRoundHalfEven (x * 100) : ℚ) / 100)) := by
  rintro (h | h)
  · have h1 := h (-1 / 8)
    norm_num [roundCoordinate, mathRound, specRoundHalfAwayFromZero] at h1
  · have h1 := h (1 / 8)
    norm_num [roundCoordinate, mathRound, specRoundHalfEven] at h1

/-- C9 amended: roundCoordinate multiplies by 100, rounds to a nearest
integer and divides by 100 — but the single consistent tie-breaking mode
is half-up (ties toward positive infinity), the same for positive and
negative values, which is neither half-away-from-zero nor banker's: every
exact tie at hundredths goes to the larger neighbour. -/
theorem roundCoordinate_half_up :
    (∀ x : ℚ, ∃ n : ℤ, roundCoordinate x = (n : ℚ) / 100 ∧ |(n : ℚ) - 100 * x| ≤ 1 / 2) ∧
    (∀ m : ℤ, roundCoordinate ((2 * m + 1) / 200) = ((m + 1 : ℤ) : ℚ) / 100) := by
  constructor
  · intro x
    refine ⟨mathRound (x * 100), rfl, ?_⟩
    have h1 : (mathRound (x * 100) : ℚ) ≤ x * 100 + 1 / 2 := Int.floor_le _
    have h2 : x * 100 + 1 / 2 < (mathRound (x * 100) : ℚ) + 1 := Int.lt_floor_add_one _
    rw [abs_le]
    constructor <;> linarith
  · intro m
    have h : ((2 * m + 1 : ℚ)) / 200 * 100 + 1 / 2 = ((m + 1 : ℤ) : ℚ) := by
      push_cast
      ring
    have hcast : ((2 * (m : ℚ) + 1)) / 200 = ((2 * m + 1 : ℚ)) / 200 := by ring
    rw [roundCoordinate, mathRound, hcast, h, Int.floor_intCast]

/-- C1: as committed, the startup block cannot leave the process running
in degraded mode. The duplicated connect block at src/server.js lines
44-54 is a SyntaxError (a catch without a try) that aborts loading; under
the most charitable parse, in every start where no store location is
configured or the store is unreachable, line 45 dereferences a
null/undefined redisClient and the process crashes instead of entering
degraded mode. -/
theorem startup_degraded_crashes :
    startup false false = .crashed "TypeError: Cannot read properties of null (reading 'on')" ∧
    startup true false = .crashed "TypeError: Cannot read properties of null (reading 'on')" ∧
    startup false true = .crashed "TypeError: Cannot read properties of null (reading 'on')" :=
  ⟨rfl, rfl, rfl⟩

/-- C2 counterexample: the health body has no cacheConnected field at all;
connectivity is reported under the key redis as a string. -/
theorem health_cacheConnected_counterexample :
    (healthHandler false "2025-11-22T12:50:16Z").status = 200 ∧
    (healthHandler false "2025-11-22T12:50:16Z").body.getField "cacheConnected" = none ∧
    (healthHandler false "2025-11-22T12:50:16Z").body.getField "redis" =
      some (.str "disconnected") :=
  ⟨rfl, rfl, rfl⟩

/-- C2 amended: GET /health always responds 200 with status "ok", a
timestamp, and the connectivity flag exposed as the string field
redis = "connected" | "disconnected" (not a boolean cacheConnected);
the handler is total, so the endpoint never fails. -/
theorem health_endpoint_behavior (connected : Bool) (now : String) :
    (healthHandler connected now).status = 200 ∧
    (healthHandler connected now).body.getField "status" = some (.str "ok") ∧
    (healthHandler connected now).body.getField "redis" =
      some (.str (if connected then "connected" else "disconnected")) ∧
    (healthHandler connected now).body.getField "timestamp" = some (.str now) := by
  cases connected <;> exact ⟨rfl, rfl, rfl, rfl⟩

/-- Follows the spec's words, for comparison with the code: a coordinate
formatted with exactly two decimal places. -/
def specTwoDecimalString (q : ℚ) : String :=
  let m : ℤ := ⌊q * 100⌋
  let n : ℕ := m.natAbs
  let sign : String := if m < 0 then "-" else ""
  let fp : ℕ := n % 100
  sign ++ toString (n / 100) ++ "." ++ (if fp < 10 then "0" else "") ++ toString fp

/-- Follows the spec's words, for comparison with the code: the cache key
with both rounded values padded to exactly two decimals. -/
def specCacheKeyTwoDecimals (la lo : ℚ) : String :=
  "weather:" ++ specTwoDecimalString la ++ ":" ++ specTwoDecimalString lo

/-- C3 counterexample: for lat 35.6, lon 139.65 the code's key is
weather:35.6:139.65 — the latitude keeps one decimal, not the claimed
exactly-two-decimal 35.60 of weather:35.60:139.65. -/
theorem cacheKey_two_decimal_counterexample :
    cacheKey (roundCoordinate (178 / 5)) (roundCoordinate (2793 / 20)) =
      "weather:35.6:139.65" ∧
    specCacheKeyTwoDecimals (roundCoordinate (178 / 5)) (roundCoordinate (2793 / 20)) =
      "weather:35.60:139.65" ∧
    "weather:35.6:139.65" ≠ "weather:35.60:139.65" := by
  refine ⟨?_, ?_, ?_⟩
  · norm_num [cacheKey, jsNumToString, roundCoordinate, mathRound]
    decide
  · norm_num [specCacheKeyTwoDecimals, specTwoDecimalString, roundCoordinate, mathRound]
    decide
  · decide

/-- C3 amended: two coordinate pairs whose components round to the same
2-decimal cell share one cache key of the shape weather:lat:lon, but the
rounded values are embedded in JS default number formatting, which pads
nothing: 35.68/139.65 render with two decimals only because they need
them, while 35.6 renders as 35.6, not 35.60. -/
theorem cacheKey_sharing_and_format (lat lon lat' lon' : ℚ)
    (hlat : roundCoordinate lat = roundCoordinate lat')
    (hlon : roundCoordinate lon = roundCoordinate lon') :
    cacheKey (roundCoordinate lat) (roundCoordinate lon) =
      cacheKey (roundCoordinate lat') (roundCoordinate lon') ∧
    cacheKey (roundCoordinate (356812 / 10000)) (roundCoordinate (1396545 / 10000)) =
      "weather:35.68:139.65" ∧
    cacheKey (roundCoordinate (178 / 5)) (roundCoordinate (2793 / 20)) =
      "weather:35.6:139.65" := by
  refine ⟨by rw [hlat, hlon], ?_, ?_⟩
  · norm_num [cacheKey, jsNumToString, roundCoordinate, mathRound]
    decide
  · norm_num [cacheKey, jsNumToString, roundCoordinate, mathRound]
    decide

theorem cacheKey_sharing_and_format_witness :
    cacheKey (roundCoordinate (356812 / 10000)) (roundCoordinate (1396545 / 10000)) =
      cacheKey (roundCoordinate (356789 / 10000)) (roundCoordinate (1396523 / 10000)) :=
  (cacheKey_sharing_and_format (356812 / 10000) (1396545 / 10000)
    (356789 / 10000) (1396523 / 10000)
    (by norm_num [roundCoordinate, mathRound])
    (by norm_num [roundCoordinate, mathRound])).1

/-- C6 counterexample: "Infinity" parses to a non-finite number, yet
validation does not fail with the invalid-format error — the value passes
the format check and is rejected by the latitude range check instead. -/
theorem validate_infinity_counterexample :
    parseFloat "Infinity" = JsNum.posInf ∧
    validateCoordinates "Infinity" "10" =
      .invalid "Latitude must be between -90 and 90" ∧
    validateCoordinates "Infinity" "10" ≠ .invalid "Invalid coordinates format" := by
  refine ⟨?_, ?_, ?_⟩
  · simp [parseFloat, jsWhitespace]
  · simp [validateCoordinates, parseFloat, parseMantissa, parseExponent, takeDigits,
      jsWhitespace, JsNum.isNaN, jsLt]
  · simp [validateCoordinates, parseFloat, parseMantissa, parseExponent, takeDigits,
      jsWhitespace, JsNum.isNaN, jsLt]

/-- C6 amended: validation fails with the invalid-format error exactly
when one of the inputs parses to NaN (no numeric prefix at all); inputs
that parse to an infinity pass the format check and proceed to the range
checks, which reject them with a range error instead. -/
theorem validate_invalid_format_iff (latRaw lonRaw : String) :
    validateCoordinates latRaw lonRaw = .invalid "Invalid coordinates format" ↔
      parseFloat latRaw = .nan ∨ parseFloat lonRaw = .nan := by
  unfold validateCoordinates
  cases hla : parseFloat latRaw <;> cases hlo : parseFloat lonRaw <;>
    simp [JsNum.isNaN, jsLt] <;> split_ifs <;> simp_all

/-- The budgeted hourly loop collects exactly the first cap hours of the
concatenation of all the days' hour buckets, in input order. -/
theorem collectHours_eq_take (days : List RawDay) (cap : Nat) :
    collectHours days cap = (allHours days).take cap := by
  induction days generalizing cap with
  | nil => simp [collectHours, allHours]
  | cons d ds ih =>
      rw [collectHours, allHours, List.take_append_eq_append_take, ih, List.map_take]
      congr 1
      simp [List.length_take, List.length_map]
      omega

/-- C5: whenever the transformer succeeds, its hourly output is exactly
the earliest 48 of all the days' hour records concatenated in input
(chronological) order — so never more than 48 however many the raw input
holds — and its daily output is exactly the first 7 raw days mapped in
original order, so never more than 7. -/
theorem transform_truncation (data : Raw) (lat lon : ℚ) (cached : Bool) (now : String)
    (s : Snapshot) (h : transformWeatherData data lat lon cached now = .ok s) :
    s.hourly = (allHours (data.days.getD [])).take 48 ∧
    s.hourly.length ≤ 48 ∧
    s.daily = ((data.days.getD []).take 7).map mkDailyRec ∧
    s.daily.length ≤ 7 := by
  cases hcc : data.currentConditions with
  | none => simp [transformWeatherData, hcc] at h
  | some current =>
      simp only [transformWeatherData, hcc, Except.ok.injEq] at h
      subst h
      refine ⟨collectHours_eq_take _ _, ?_, rfl, ?_⟩
      · rw [collectHours_eq_take]
        exact List.length_take_le _ _
      · rw [List.length_map]
        exact List.length_take_le _ _

/-- Concrete raw input for the truncation witness: two days, the first
with two hour records, the second with no hours array. -/
def rawEx : Raw :=
  { currentConditions := some ⟨none, none, none, none, none, none, none⟩
  , days := some
      [ { datetime := "2025-01-01"
        , hours := some
            [ ⟨"00:00:00", none, none, none, none, none, none⟩
            , ⟨"01:00:00", none, none, none, none, none, none⟩ ]
        , tempmax := none, tempmin := none, precipprob := none
        , conditions := none, icon := none, humidity := none, windspeed := none }
      , { datetime := "2025-01-02"
        , hours := none
        , tempmax := none, tempmin := none, precipprob := none
        , conditions := none, icon := none, humidity := none, windspeed := none } ]
  , resolvedAddress := none
  , timezone := none }

/-- The snapshot the transformer produces for rawEx. -/
def snapEx : Snapshot :=
  { location := { lat := roundCoordinate 0, lon := roundCoordinate 0
                , address := none, timezone := none }
  , current := { temp := none, feelsLike := none, humidity := none, windSpeed := none
               , condition := none, icon := none, precipProb := .num 0 }
  , hourly :=
      [ ⟨"2025-01-01T00:00:00", none, .num 0, none, none, none, none⟩
      , ⟨"2025-01-01T01:00:00", none, .num 0, none, none, none, none⟩ ]
  , daily :=
      [ ⟨"2025-01-01", none, none, .num 0, none, none, none, none⟩
      , ⟨"2025-01-02", none, none, .num 0, none, none, none, none⟩ ]
  , cached := false
  , timestamp := "2025-11-22T12:50:16Z" }

theorem transform_truncation_witness :
    snapEx.hourly = (allHours (rawEx.days.getD [])).take 48 ∧
    snapEx.hourly.length ≤ 48 ∧
    snapEx.daily = ((rawEx.days.getD []).take 7).map mkDailyRec ∧
    snapEx.daily.length ≤ 7 :=
  transform_truncation rawEx 0 0 false "2025-11-22T12:50:16Z" snapEx rfl

/-- Evaluation of the validator at the inputs the handler witnesses use. -/
theorem validateCoordinates_ok_example :
    validateCoordinates "35.6" "139.65" = .ok (178 / 5) (2793 / 20) := by
  simp [validateCoordinates, parseFloat, parseMantissa, parseExponent, takeDigits,
    jsWhitespace, JsNum.isNaN, jsLt, JsNum.toRatOr0]
  norm_num

/-- Once validation succeeds, the cache misses and the API key is
present, the handler's outcome is decided by the upstream fetch and the
transformer alone. -/
theorem weatherHandler_fetch_eq (env : Env) (latRaw lonRaw : String) (la lo : ℚ)
    (hv : validateCoordinates latRaw lonRaw = .ok la lo)
    (htb : cacheTryBlock env (cacheKey (roundCoordinate la) (roundCoordinate lo)) = none)
    (hkey : env.apiKeyConfigured = true) :
    weatherHandler env latRaw lonRaw =
      match env.upstream with
      | .error e => { response := catchBlock (.inl e), upstreamCalled := true }
      | .ok raw =>
          match transformWeatherData raw (roundCoordinate la) (roundCoordinate lo)
              false env.now with
          | .error jserr => { response := catchBlock (.inr jserr), upstreamCalled := true }
          | .ok snap =>
              { response := { status := 200, body := snapshotToJson snap }
              , upstreamCalled := true } := by
  simp [weatherHandler, hv, htb, hkey]

/-- When the get-and-parse itself already yields nothing, the whole try
block falls through. -/
theorem cacheTryBlock_none_of_lookup_none (env : Env) (key : String)
    (h : cacheLookup env key = none) : cacheTryBlock env key = none := by
  simp [cacheTryBlock, h]

/-- Whenever the cache try block falls through and the API key is
configured, the handler reaches the upstream fetch. -/
theorem weatherHandler_upstreamCalled (env : Env) (latRaw lonRaw : String) (la lo : ℚ)
    (hv : validateCoordinates latRaw lonRaw = .ok la lo)
    (htb : cacheTryBlock env (cacheKey (roundCoordinate la) (roundCoordinate lo)) = none)
    (hkey : env.apiKeyConfigured = true) :
    (weatherHandler env latRaw lonRaw).upstreamCalled = true := by
  rw [weatherHandler_fetch_eq env latRaw lonRaw la lo hv htb hkey]
  cases env.upstream with
  | error e => rfl
  | ok raw =>
      cases ht : transformWeatherData raw (roundCoordinate la) (roundCoordinate lo)
          false env.now with
      | error jserr => simp [ht]
      | ok snap => simp [ht]

/-- C4: with the adapter connected, a hit whose stored string deserializes
to an object — the shape of every snapshot the service stores — is
answered 200 with that object re-marked cached=true and restamped with
the current time, and the upstream fetch is never reached; a miss or a
failed get/deserialize falls through to the upstream fetch path, as does
the degenerate non-snapshot hit null, whose property assignment at line
185 throws into the same catch. -/
theorem weather_cache_hit_behavior (env : Env) (latRaw lonRaw : String) (la lo : ℚ)
    (fs : List (String × Json))
    (hv : validateCoordinates latRaw lonRaw = .ok la lo)
    (hconn : env.redisConnected = true) :
    (env.cacheGet (cacheKey (roundCoordinate la) (roundCoordinate lo)) = .hit (.obj fs) →
      weatherHandler env latRaw lonRaw =
        { response :=
            { status := 200
            , body := .obj (setFieldList (setFieldList fs "cached" (.bool true))
                        "timestamp" (.str env.now)) }
        , upstreamCalled := false }) ∧
    ((env.cacheGet (cacheKey (roundCoordinate la) (roundCoordinate lo)) = .miss ∨
      env.cacheGet (cacheKey (roundCoordinate la) (roundCoordinate lo)) = .fail) →
      env.apiKeyConfigured = true →
      (weatherHandler env latRaw lonRaw).upstreamCalled = true) ∧
    (env.cacheGet (cacheKey (roundCoordinate la) (roundCoordinate lo)) = .hit .null →
      env.apiKeyConfigured = true →
      (weatherHandler env latRaw lonRaw).upstreamCalled = true) := by
  refine ⟨?_, ?_, ?_⟩
  · intro hh
    simp [weatherHandler, cacheTryBlock, cacheLookup, hv, hconn, hh, Json.setField]
  · intro hm hkey
    have htb : cacheTryBlock env (cacheKey (roundCoordinate la) (roundCoordinate lo)) =
        none := by
      rcases hm with hm | hm <;> simp [cacheTryBlock, cacheLookup, hconn, hm]
    exact weatherHandler_upstreamCalled env latRaw lonRaw la lo hv htb hkey
  · intro hh hkey
    have htb : cacheTryBlock env (cacheKey (roundCoordinate la) (roundCoordinate lo)) =
        none := by
      simp [cacheTryBlock, cacheLookup, hconn, hh, Json.setField]
    exact weatherHandler_upstreamCalled env latRaw lonRaw la lo hv htb hkey

/-- Fields of a stored snapshot for the hit witness. -/
def hitJsonFields : List (String × Json) :=
  [("location", .null), ("cached", .bool false),
   ("timestamp", .str "2025-11-22T11:55:00Z")]

def envHit : Env :=
  { redisConnected := true
  , cacheGet := fun _ => .hit (.obj hitJsonFields)
  , apiKeyConfigured := true
  , upstream := .error (.netError "socket hang up")
  , now := "2025-11-22T12:00:00Z" }

theorem weather_cache_hit_behavior_witness :
    weatherHandler envHit "35.6" "139.65" =
      { response :=
          { status := 200
          , body := .obj (setFieldList (setFieldList hitJsonFields "cached" (.bool true))
                      "timestamp" (.str envHit.now)) }
      , upstreamCalled := false } :=
  (weather_cache_hit_behavior envHit "35.6" "139.65" (178 / 5) (2793 / 20) hitJsonFields
    validateCoordinates_ok_example rfl).1 rfl

/-- C7: for a request that reaches the upstream call, an upstream timeout
is answered 504, an upstream HTTP error is answered with the upstream's
own status and its payload under details, and any other fetch failure is
answered 500 with the error's message. -/
theorem weather_upstream_error_mapping (env : Env) (latRaw lonRaw : String) (la lo : ℚ)
    (hv : validateCoordinates latRaw lonRaw = .ok la lo)
    (hmiss : cacheLookup env (cacheKey (roundCoordinate la) (roundCoordinate lo)) = none)
    (hkey : env.apiKeyConfigured = true) :
    (∀ msg, env.upstream = .error (.timeout msg) →
      (weatherHandler env latRaw lonRaw).response.status = 504) ∧
    (∀ st data msg, env.upstream = .error (.httpError st data msg) →
      (weatherHandler env latRaw lonRaw).response.status = st ∧
      (weatherHandler env latRaw lonRaw).response.body.getField "details" = some data) ∧
    (∀ msg, env.upstream = .error (.netError msg) →
      (weatherHandler env latRaw lonRaw).response.status = 500 ∧
      (weatherHandler env latRaw lonRaw).response.body.getField "message" =
        some (.str msg)) := by
  rw [weatherHandler_fetch_eq env latRaw lonRaw la lo hv
    (cacheTryBlock_none_of_lookup_none _ _ hmiss) hkey]
  refine ⟨?_, ?_, ?_⟩
  · intro msg hup
    rw [hup]
    rfl
  · intro st data msg hup
    rw [hup]
    exact ⟨rfl, by simp [catchBlock, Json.getField, lookupField]⟩
  · intro msg hup
    rw [hup]
    exact ⟨rfl, by simp [catchBlock, Json.getField, lookupField]⟩

def envTimeout : Env :=
  { redisConnected := false
  , cacheGet := fun _ => .miss
  , apiKeyConfigured := true
  , upstream := .error (.timeout "timeout of 10000ms exceeded")
  , now := "2025-11-22T12:00:00Z" }

theorem weather_upstream_error_mapping_witness :
    (weatherHandler envTimeout "35.6" "139.65").response.status = 504 :=
  (weather_upstream_error_mapping envTimeout "35.6" "139.65" (178 / 5) (2793 / 20)
    validateCoordinates_ok_example rfl rfl).1 "timeout of 10000ms exceeded" rfl

/-- C10: an upstream success whose body has no currentConditions object is
answered 500 (the transformer's TypeError reaches the generic catch
branch), not 200. -/
theorem weather_missing_current_500 (env : Env) (latRaw lonRaw : String) (la lo : ℚ)
    (raw : Raw)
    (hv : validateCoordinates latRaw lonRaw = .ok la lo)
    (hmiss : cacheLookup env (cacheKey (roundCoordinate la) (roundCoordinate lo)) = none)
    (hkey : env.apiKeyConfigured = true)
    (hup : env.upstream = .ok raw)
    (hcc : raw.currentConditions = none) :
    (weatherHandler env latRaw lonRaw).response.status = 500 ∧
    (weatherHandler env latRaw lonRaw).response.body.getField "error" =
      some (.str "Internal server error") := by
  rw [weatherHandler_fetch_eq env latRaw lonRaw la lo hv
    (cacheTryBlock_none_of_lookup_none _ _ hmiss) hkey, hup]
  simp [transformWeatherData, hcc, catchBlock, Json.getField, lookupField]

/-- An upstream 200 body with no currentConditions, for the witness. -/
def rawNoCurrent : Raw :=
  { currentConditions := none, days := none, resolvedAddress := none, timezone := none }

def envNoCurrent : Env :=
  { redisConnected := false
  , cacheGet := fun _ => .miss
  , apiKeyConfigured := true
  , upstream := .ok rawNoCurrent
  , now := "2025-11-22T12:00:00Z" }

theorem weather_missing_current_500_witness :
    (weatherHandler envNoCurrent "35.6" "139.65").response.status = 500 ∧
    (weatherHandler envNoCurrent "35.6" "139.65").response.body.getField "error" =
      some (.str "Internal server error") :=
  weather_missing_current_500 envNoCurrent "35.6" "139.65" (178 / 5) (2793 / 20)
    rawNoCurrent validateCoordinates_ok_example rfl rfl rfl rfl
